import Mathlib

/-!
# Verification of the Liquid Pressure Chess heuristic core

A shallow embedding of `src/liquid_pressure_chess.py`: the clock model, the
pressure state, the move-selection heuristics and the game-over reporting.

Modelling conventions:
* Python floats are modelled as exact rationals (`ℚ`); the claims are about
  the algorithms, not about IEEE rounding.
* Wall-clock timestamps (`datetime.now()`) become explicit `ℚ` arguments.
* Every call to `random.random()` / `random.uniform(..)` becomes an explicit
  `ℚ` argument; a call to `random.choice(l)` becomes an explicit `ℕ` index
  argument reduced modulo the length of `l` (any uniform outcome corresponds
  to some index).  Theorems quantify over these draws, covering every outcome
  of the random source.
* The board (owned by the external `python-chess` collaborator) is reduced to
  the features the embedded code actually queries: the legal move count,
  the check flag, and per-candidate capture / moved-piece / target-square
  facts, carried as fields of `Cand`.
* Global mutable state (`engine_time_remaining`, `LIQUID_STYLE`, ...) becomes
  explicit state records passed and returned.
-/

/-- Total game duration: `GAME_DURATION = 10 * 60` seconds. -/
def GAME_DURATION : ℚ := 10 * 60

/-- The liquid-style phase: `calm_flow` / `building_waves` / `crushing_tide`. -/
inductive Phase where
  | calm_flow
  | building_waves
  | crushing_tide
deriving DecidableEq

/-- The mutable `LIQUID_STYLE` dictionary. -/
structure LiquidStyle where
  pressure : ℚ
  flow_momentum : ℚ
  time_awareness : String
  phase : Phase
deriving DecidableEq

/-- Initial value of `LIQUID_STYLE`. -/
def LIQUID_STYLE_init : LiquidStyle :=
  { pressure := 0, flow_momentum := 0, time_awareness := "balanced",
    phase := Phase.calm_flow }

/-- The clock globals: `engine_time_remaining`, `opponent_time_remaining`,
`last_move_time`. -/
structure ClockState where
  engine_time_remaining : ℚ
  opponent_time_remaining : ℚ
  last_move_time : ℚ
deriving DecidableEq

/-- `update_clock(is_engine_move)`: computes the wall-clock time elapsed since
`last_move_time`, records the new timestamp, and subtracts the elapsed time
from `opponent_time_remaining` when `is_engine_move` is true, from
`engine_time_remaining` otherwise.  Returns the new state and `elapsed`. -/
def update_clock (is_engine_move : Bool) (current_time : ℚ) (s : ClockState) :
    ClockState × ℚ :=
  let elapsed := current_time - s.last_move_time
  if is_engine_move then
    ({ s with last_move_time := current_time,
              opponent_time_remaining := s.opponent_time_remaining - elapsed },
     elapsed)
  else
    ({ s with last_move_time := current_time,
              engine_time_remaining := s.engine_time_remaining - elapsed },
     elapsed)

/-- `get_time_pressure(time_remaining, move_number)`. -/
def get_time_pressure (time_remaining : ℚ) (move_number : ℤ) : ℚ :=
  let expected_moves : ℤ := 40
  let time_per_move : ℚ := GAME_DURATION / 40
  let moves_remaining : ℤ := expected_moves - move_number
  if moves_remaining ≤ 0 then 1
  else
    let available_time := time_remaining / (moves_remaining : ℚ)
    let pressure := max 0 (1 - available_time / time_per_move)
    min 1 pressure

/-- `adaptive_thinking_time(board, time_remaining, pressure)`.  The board is
only queried for `fullmove_number`, passed here as `move_number`.  The five
`random.uniform` call sites become the five draw arguments `uCalm`, `uBuild`,
`uCrush` (base time per pressure branch), `uLow` (remaining < 60) and `uMid`
(remaining < 180). -/
def adaptive_thinking_time (time_remaining : ℚ) (move_number : ℤ)
    (pressure : ℚ) (uCalm uBuild uCrush uLow uMid : ℚ) : ℚ :=
  let time_pressure := get_time_pressure time_remaining move_number
  let base1 : ℚ :=
    if pressure < 0.3 then uCalm
    else if pressure < 0.7 then uBuild
    else uCrush
  let base2 : ℚ :=
    if time_pressure > 0.5 then base1 * (1 - time_pressure * 0.6) else base1
  let base3 : ℚ :=
    if time_remaining < 60 then uLow
    else if time_remaining < 180 then uMid
    else base2
  let base4 : ℚ := max 0.3 base3
  let max_reasonable := time_remaining * 0.1
  min base4 max_reasonable

/-- `update_liquid_momentum(board, move_uci, time_used)`.  The board is only
queried for `len(list(board.legal_moves))`, passed here as
`legal_move_count`; `move_uci` is unused by the Python body and kept for
fidelity. -/
def update_liquid_momentum (legal_move_count : ℕ) (move_uci : String)
    (time_used : ℚ) (s : LiquidStyle) : LiquidStyle :=
  let momentum := min 1 (s.flow_momentum + 0.06)
  let position_complexity : ℚ := (legal_move_count : ℚ) / 20
  let time_efficiency : ℚ := min 1 (time_used / 5)
  let pressure :=
    momentum * 0.6 + position_complexity * 0.3 + time_efficiency * 0.1
  let phase :=
    if pressure < 0.4 then Phase.calm_flow
    else if pressure < 0.8 then Phase.building_waves
    else Phase.crushing_tide
  { s with pressure := pressure, flow_momentum := momentum, phase := phase }

/-- The spec's pressure formula, verbatim from its words: the weighted sum
with the third term clamped to [0,1] and the whole sum capped at 1.0.  Used
only to compare against the code's `update_liquid_momentum`. -/
def pressure_formula_spec (momentum : ℚ) (legal_move_count : ℕ)
    (time_used : ℚ) : ℚ :=
  min 1 (0.6 * momentum + 0.3 * ((legal_move_count : ℚ) / 20)
    + 0.1 * (max 0 (min 1 (time_used / 5))))

/-- Piece types, as far as `is_calm_move` distinguishes them. -/
inductive PieceType where
  | pawn
  | knight
  | bishop
  | rook
  | queen
  | king
deriving DecidableEq

/-- A candidate move from `sf.get_top_moves`, together with the board facts
the selector queries about it: whether `board.is_capture(move)` holds, the
piece at `move.from_square` (`none` when the square is empty), and whether
`attacks_important_square(board, move)` holds (the move's target is a center
square or within distance 2 of the opponent king). -/
structure Cand where
  move : String
  isCapture : Bool
  fromPiece : Option PieceType
  attacksImportant : Bool
deriving DecidableEq

/-- `random.choice(l)`: the draw is an index `i`, reduced modulo the length;
`none` exactly when `l` is empty (where Python raises `IndexError`). -/
def pyChoice {α : Type} (l : List α) (i : ℕ) : Option α :=
  l[i % l.length]?

/-- `random.choices(population, weights, k=1)[0]`: the draw `u` is uniform in
`[0, total weight)`; returns the first element whose cumulative weight
exceeds `u`. -/
def weighted_pick {α : Type} (l : List (α × ℚ)) (u : ℚ) : Option α :=
  match l with
  | [] => none
  | (a, w) :: rest => if u < w then some a else weighted_pick rest (u - w)

/-- `is_calm_move(board, move_uci)`: not in check, not a capture, and the
moved piece is a pawn, knight or bishop. -/
def is_calm_move (inCheck : Bool) (c : Cand) : Bool :=
  if inCheck || c.isCapture then false
  else
    match c.fromPiece with
    | some p =>
        decide (p = PieceType.pawn ∨ p = PieceType.knight ∨ p = PieceType.bishop)
    | none => false

/-- `blitz_mode_moves(top_moves)`: 80% best move, 20% second best.  `r` is
the `random.random()` draw. -/
def blitz_mode_moves (top_moves : List Cand) (r : ℚ) : Option String :=
  if r < 0.8 then (top_moves[0]?).map Cand.move
  else if 1 < top_moves.length then (top_moves[1]?).map Cand.move
  else (top_moves[0]?).map Cand.move

/-- `calm_flow_moves(board, top_moves, time_pressure)`.  `r1` is the draw at
`solid_moves and random.random() < 0.7`, `r2` the draw in the noise branch,
`c1` the `random.choice(solid_moves[:3])` index, `c2` the
`random.choice(top_moves[1:4])` index. -/
def calm_flow_moves (inCheck : Bool) (top_moves : List Cand)
    (time_pressure : ℚ) (r1 r2 : ℚ) (c1 c2 : ℕ) : Option String :=
  let solid_moves := top_moves.filter (is_calm_move inCheck)
  if solid_moves ≠ [] ∧ r1 < 0.7 then
    (pyChoice (solid_moves.take 3) c1).map Cand.move
  else
    let chosen : Option Cand :=
      if r2 < max 0.2 (time_pressure * 0.3) then
        if 3 < top_moves.length then pyChoice ((top_moves.drop 1).take 3) c2
        else top_moves[0]?
      else top_moves[0]?
    chosen.map Cand.move

/-- `calculate_pressure_weight(board, move_uci, rank)`. -/
def calculate_pressure_weight (inCheck : Bool) (c : Cand) (rank : ℕ) : ℚ :=
  let base_weight : ℚ := 1 / ((rank : ℚ) + 1)
  let w1 := if inCheck then base_weight * 1.3 else base_weight
  let w2 := if c.isCapture then w1 * 1.2 else w1
  if c.attacksImportant then w2 * 1.25 else w2

/-- `building_waves_moves(board, top_moves, time_pressure)`; `u` is the
`random.choices` draw. -/
def building_waves_moves (inCheck : Bool) (top_moves : List Cand)
    (time_pressure : ℚ) (u : ℚ) : Option String :=
  let weighted_moves := top_moves.enum.map (fun p =>
    (p.2, calculate_pressure_weight inCheck p.2 p.1 * (1 - time_pressure * 0.2)))
  (weighted_pick weighted_moves u).map Cand.move

/-- `crushing_tide_moves(board, top_moves, time_pressure)`; `r` is the
`random.random()` draw, `c` the `random.choice(top_moves[1:3])` index. -/
def crushing_tide_moves (top_moves : List Cand) (time_pressure : ℚ)
    (r : ℚ) (c : ℕ) : Option String :=
  if r < 0.8 - time_pressure * 0.3 then (top_moves[0]?).map Cand.move
  else if 2 < top_moves.length then
    (pyChoice ((top_moves.drop 1).take 2) c).map Cand.move
  else (top_moves[0]?).map Cand.move

/-- `get_positional_tension(board)`, on the board features it reads. -/
def get_positional_tension (piece_count legal_move_count : ℕ)
    (inCheck anyCapture : Bool) : ℚ :=
  let t1 : ℚ := ((piece_count : ℚ) / 32) * 0.3
  let t2 : ℚ := if inCheck then t1 + 0.2 else t1
  let t3 : ℚ := if anyCapture then t2 + 0.2 else t2
  let t4 : ℚ := t3 + min 0.3 ((legal_move_count : ℚ) / 50)
  min 1 t4

/-- `liquid_style_move_selection(board, sf, time_remaining)`.  The external
engine interaction (`sf.set_skill_level`, `sf.get_top_moves(top_n)`) is
abstracted: the ranked candidate list it returns is the input `top_moves`
(`[]` when the engine returns no candidates, making the result `none`).
The skill draw and the `top_n` computation affect only that external call.
`r1`, `r2`, `c1`, `c2`, `u` are the random draws consumed by whichever
branch runs. -/
def liquid_style_move_selection (st : LiquidStyle) (time_remaining : ℚ)
    (move_number : ℤ) (inCheck : Bool) (top_moves : List Cand)
    (r1 r2 : ℚ) (c1 c2 : ℕ) (u : ℚ) : Option String :=
  let time_pressure := get_time_pressure time_remaining move_number
  if top_moves = [] then none
  else if time_remaining < 30 then blitz_mode_moves top_moves r1
  else
    match st.phase with
    | Phase.calm_flow => calm_flow_moves inCheck top_moves time_pressure r1 r2 c1 c2
    | Phase.building_waves => building_waves_moves inCheck top_moves time_pressure u
    | Phase.crushing_tide => crushing_tide_moves top_moves time_pressure r1 c1

/-- The outcome messages printed after the game loop exits. -/
inductive Outcome where
  | timeForfeitSelf
  | timeForfeitOpponent
  | checkmateCrushing
  | checkmateFlow
  | stalemate
  | insufficientMaterial
  | fiftyMoves
  | other
deriving DecidableEq

/-- The `while` condition of both game loops:
`not board.is_game_over() and engine_time_remaining > 0 and
opponent_time_remaining > 0`. -/
def game_loop_continues (gameOver : Bool)
    (engine_time_remaining opponent_time_remaining : ℚ) : Bool :=
  !gameOver && decide (engine_time_remaining > 0)
    && decide (opponent_time_remaining > 0)

/-- The game-over message selection chain at the end of the script, in the
source's `if`/`elif` order. -/
def game_over_message (engine_time_remaining opponent_time_remaining : ℚ)
    (isCheckmate isStalemate isInsufficientMaterial isFiftyMoves : Bool)
    (pressure : ℚ) : Outcome :=
  if engine_time_remaining ≤ 0 then Outcome.timeForfeitSelf
  else if opponent_time_remaining ≤ 0 then Outcome.timeForfeitOpponent
  else if isCheckmate then
    if pressure > 0.7 then Outcome.checkmateCrushing else Outcome.checkmateFlow
  else if isStalemate then Outcome.stalemate
  else if isInsufficientMaterial then Outcome.insufficientMaterial
  else if isFiftyMoves then Outcome.fiftyMoves
  else Outcome.other

/-! ## Helper lemmas -/

theorem pyChoice_mem {α : Type} {l : List α} {i : ℕ} {x : α}
    (h : pyChoice l i = some x) : x ∈ l := by
  unfold pyChoice at h
  obtain ⟨hl, rfl⟩ := List.getElem?_eq_some_iff.mp h
  exact List.getElem_mem hl

theorem pyChoice_isSome {α : Type} (l : List α) (i : ℕ) (h : l ≠ []) :
    ∃ x, pyChoice l i = some x := by
  have hlen : 0 < l.length := List.length_pos.mpr h
  have hlt : i % l.length < l.length := Nat.mod_lt _ hlen
  exact ⟨l[i % l.length], List.getElem?_eq_getElem hlt⟩

/-! ## Claims -/

/-- C1: the spec's clock contract says `tick(mover)` subtracts the elapsed
wall-clock time from the mover's own remaining-time counter and leaves the
other party's counter unchanged.  The code does the opposite: evaluating
`update_clock(is_engine_move=True)` — the tick recorded right after the
engine (the mover) commits its move — at a state with both clocks at 600 s,
a previous tick at time 0 and the current time 5 s, the engine's counter
stays 600 while the opponent's counter drops to 595. -/
theorem update_clock_charges_nonmover :
    update_clock true 5
      { engine_time_remaining := 600, opponent_time_remaining := 600,
        last_move_time := 0 } =
    ({ engine_time_remaining := 600, opponent_time_remaining := 595,
       last_move_time := 5 }, 5) := by
  norm_num [update_clock, Prod.ext_iff]

/-- C4: `get_time_pressure` returns exactly 1 whenever the move number is at
least 40; for non-negative remaining time and move number the result lies in
[0, 1]; and at remaining = 600 with move number 0 it returns 0. -/
theorem get_time_pressure_props :
    (∀ (r : ℚ) (m : ℤ), 40 ≤ m → get_time_pressure r m = 1) ∧
    (∀ (r : ℚ) (m : ℤ), 0 ≤ r → 0 ≤ m →
      0 ≤ get_time_pressure r m ∧ get_time_pressure r m ≤ 1) ∧
    get_time_pressure 600 0 = 0 := by
  refine ⟨?_, ?_,
    by norm_num [get_time_pressure, GAME_DURATION, min_def, max_def]⟩
  · intro r m h
    unfold get_time_pressure
    rw [if_pos (by omega)]
  · intro r m _ _
    unfold get_time_pressure
    by_cases hg : (40 : ℤ) - m ≤ 0
    · rw [if_pos hg]
      exact ⟨zero_le_one, le_refl 1⟩
    · rw [if_neg hg]
      exact ⟨le_min zero_le_one (le_max_left 0 _), min_le_left 1 _⟩

/-- C4 witness. -/
theorem get_time_pressure_props_witness :
    get_time_pressure 100 45 = 1 ∧
    (0 ≤ get_time_pressure 600 0 ∧ get_time_pressure 600 0 ≤ 1) :=
  ⟨get_time_pressure_props.1 100 45 (by norm_num),
   get_time_pressure_props.2.1 600 0 (by norm_num) (by norm_num)⟩

/-- C5: when the engine's (self side's) remaining time is exactly 0, the
main loop's `while` condition is false — the loop terminates — and the
game-over message chain selects the self time-forfeit outcome for every
combination of the board predicates, in particular even when the position is
simultaneously checkmate: the time check precedes the checkmate check. -/
theorem time_forfeit_beats_checkmate (gameOver isCheckmate isStalemate
    isInsufficientMaterial isFiftyMoves : Bool)
    (opponent_time_remaining pressure : ℚ) :
    game_loop_continues gameOver 0 opponent_time_remaining = false ∧
    game_over_message 0 opponent_time_remaining isCheckmate isStalemate
      isInsufficientMaterial isFiftyMoves pressure = Outcome.timeForfeitSelf := by
  constructor
  · simp [game_loop_continues]
  · simp [game_over_message]

/-- C2 counterexample: the claim says recording an opponent move
(`is_self=false`) leaves momentum unchanged.  The code has no such guard:
the opponent-move call site `update_liquid_momentum(board, opp_move, 0)`
runs the same unconditional `+ 0.06` update, so from the initial state
(momentum 0) an opponent move changes momentum to 0.06. -/
theorem momentum_changed_by_opponent_move :
    (update_liquid_momentum 20 "e7e5" 0 LIQUID_STYLE_init).flow_momentum ≠
      LIQUID_STYLE_init.flow_momentum := by
  norm_num [update_liquid_momentum, LIQUID_STYLE_init, min_def]

/-- C2 amended: every recorded move — self or opponent alike — sets momentum
to `min 1 (previous + 0.06)`; hence momentum is non-decreasing across all
recorded moves (given the invariant that it is at most 1) and never
exceeds 1. -/
theorem momentum_step (s : LiquidStyle) (legal_move_count : ℕ) (mv : String)
    (time_used : ℚ) (h : s.flow_momentum ≤ 1) :
    s.flow_momentum ≤
      (update_liquid_momentum legal_move_count mv time_used s).flow_momentum ∧
    (update_liquid_momentum legal_move_count mv time_used s).flow_momentum ≤ 1 ∧
    (update_liquid_momentum legal_move_count mv time_used s).flow_momentum =
      min 1 (s.flow_momentum + 0.06) := by
  refine ⟨?_, ?_, rfl⟩
  · show s.flow_momentum ≤ min 1 (s.flow_momentum + 0.06)
    exact le_min h (by linarith)
  · show min 1 (s.flow_momentum + 0.06) ≤ 1
    exact min_le_left _ _

/-- C2 witness. -/
theorem momentum_step_witness :
    LIQUID_STYLE_init.flow_momentum ≤ 1 ∧
    (LIQUID_STYLE_init.flow_momentum ≤
      (update_liquid_momentum 20 "g1f3" 3 LIQUID_STYLE_init).flow_momentum ∧
    (update_liquid_momentum 20 "g1f3" 3 LIQUID_STYLE_init).flow_momentum ≤ 1 ∧
    (update_liquid_momentum 20 "g1f3" 3 LIQUID_STYLE_init).flow_momentum =
      min 1 (LIQUID_STYLE_init.flow_momentum + 0.06)) :=
  ⟨by norm_num [LIQUID_STYLE_init],
   momentum_step LIQUID_STYLE_init 20 "g1f3" 3
     (by norm_num [LIQUID_STYLE_init])⟩

/-- C3 counterexample: the claim says the computed pressure is the weighted
sum capped at 1.0 and so always lies in [0, 1].  The code applies no cap:
from a prior state with momentum 1, with 40 legal moves and 5 seconds used,
the computed pressure is 1.3 — strictly above 1 and different from the
spec's capped formula. -/
theorem pressure_exceeds_one_counterexample :
    (update_liquid_momentum 40 "d1h5" 5
      { pressure := 0.9, flow_momentum := 1, time_awareness := "balanced",
        phase := Phase.crushing_tide }).pressure = 1.3 ∧
    1 < (update_liquid_momentum 40 "d1h5" 5
      { pressure := 0.9, flow_momentum := 1, time_awareness := "balanced",
        phase := Phase.crushing_tide }).pressure ∧
    (update_liquid_momentum 40 "d1h5" 5
      { pressure := 0.9, flow_momentum := 1, time_awareness := "balanced",
        phase := Phase.crushing_tide }).pressure ≠
      pressure_formula_spec
        (update_liquid_momentum 40 "d1h5" 5
          { pressure := 0.9, flow_momentum := 1, time_awareness := "balanced",
            phase := Phase.crushing_tide }).flow_momentum 40 5 := by
  norm_num [update_liquid_momentum, pressure_formula_spec, min_def, max_def]

/-- C3 amended: the pressure computed by `update_liquid_momentum` equals
`0.6·momentum + 0.3·(legal move count / 20) + 0.1·min(time_used/5, 1)` with
the updated momentum and with NO cap on the sum; for a non-negative prior
momentum and non-negative `time_used` it is non-negative, but it can
exceed 1. -/
theorem pressure_formula_uncapped (s : LiquidStyle) (legal_move_count : ℕ)
    (mv : String) (time_used : ℚ) (hm : 0 ≤ s.flow_momentum)
    (ht : 0 ≤ time_used) :
    (update_liquid_momentum legal_move_count mv time_used s).pressure =
      (update_liquid_momentum legal_move_count mv time_used s).flow_momentum
        * 0.6 + ((legal_move_count : ℚ) / 20) * 0.3
        + min 1 (time_used / 5) * 0.1 ∧
    0 ≤ (update_liquid_momentum legal_move_count mv time_used s).pressure := by
  refine ⟨rfl, ?_⟩
  show 0 ≤ min 1 (s.flow_momentum + 0.06) * 0.6
    + ((legal_move_count : ℚ) / 20) * 0.3 + min 1 (time_used / 5) * 0.1
  have h1 : (0 : ℚ) ≤ min 1 (s.flow_momentum + 0.06) :=
    le_min (by norm_num) (by linarith)
  have h2 : (0 : ℚ) ≤ (legal_move_count : ℚ) / 20 := by positivity
  have h3 : (0 : ℚ) ≤ min 1 (time_used / 5) :=
    le_min (by norm_num) (by positivity)
  have m1 := mul_nonneg h1 (by norm_num : (0 : ℚ) ≤ 0.6)
  have m2 := mul_nonneg h2 (by norm_num : (0 : ℚ) ≤ 0.3)
  have m3 := mul_nonneg h3 (by norm_num : (0 : ℚ) ≤ 0.1)
  linarith

/-- C3 witness. -/
theorem pressure_formula_uncapped_witness :
    (0 ≤ LIQUID_STYLE_init.flow_momentum ∧ (0 : ℚ) ≤ 2) ∧
    ((update_liquid_momentum 30 "e2e4" 2 LIQUID_STYLE_init).pressure =
      (update_liquid_momentum 30 "e2e4" 2 LIQUID_STYLE_init).flow_momentum
        * 0.6 + ((30 : ℚ) / 20) * 0.3 + min 1 ((2 : ℚ) / 5) * 0.1 ∧
    0 ≤ (update_liquid_momentum 30 "e2e4" 2 LIQUID_STYLE_init).pressure) :=
  ⟨⟨by norm_num [LIQUID_STYLE_init], by norm_num⟩,
   pressure_formula_uncapped LIQUID_STYLE_init 30 "e2e4" 2
     (by norm_num [LIQUID_STYLE_init]) (by norm_num)⟩

/-- C7: for any remaining time above 3 seconds, any pressure, any move
number and every outcome of the random draws, the thinking time returned by
`adaptive_thinking_time` is at least 0.3 s and at most 0.1 times the
remaining time. -/
theorem adaptive_thinking_time_bounds (time_remaining : ℚ) (move_number : ℤ)
    (pressure uCalm uBuild uCrush uLow uMid : ℚ) (h : 3 < time_remaining) :
    0.3 ≤ adaptive_thinking_time time_remaining move_number pressure
      uCalm uBuild uCrush uLow uMid ∧
    adaptive_thinking_time time_remaining move_number pressure
      uCalm uBuild uCrush uLow uMid ≤ time_remaining * 0.1 := by
  unfold adaptive_thinking_time
  constructor
  · exact le_min (le_max_left _ _) (by linarith)
  · exact min_le_right _ _

/-- C7 witness. -/
theorem adaptive_thinking_time_bounds_witness :
    (3 : ℚ) < 10 ∧
    (0.3 ≤ adaptive_thinking_time 10 1 0 2 2 2 1 2 ∧
     adaptive_thinking_time 10 1 0 2 2 2 1 2 ≤ 10 * 0.1) :=
  ⟨by norm_num, adaptive_thinking_time_bounds 10 1 0 2 2 2 1 2 (by norm_num)⟩

/-- C10 counterexample: the claim's parenthetical says the returned value
falls strictly below the 0.3-second floor for every remaining in (0, 3].
At remaining = 3 exactly, the cap `0.1 × 3 = 0.3` equals the floor: the
returned value is 0.3, not below it (the main equality 0.1 × remaining
still holds there). -/
theorem thinking_time_at_three_counterexample :
    adaptive_thinking_time 3 1 0 2 2 2 1 2 = 3 * 0.1 ∧
    ¬ adaptive_thinking_time 3 1 0 2 2 2 1 2 < 0.3 := by
  norm_num [adaptive_thinking_time, get_time_pressure, GAME_DURATION,
    min_def, max_def]

/-- C10 amended: for every remaining time in (0, 3], every move number,
pressure and random draw, `adaptive_thinking_time` returns exactly
0.1 times the remaining time (the cap is applied after the 0.3-second
floor); the returned value is strictly below the 0.3 floor whenever the
remaining time is strictly below 3, and equals it at exactly 3. -/
theorem thinking_time_cap_under_three (time_remaining : ℚ) (move_number : ℤ)
    (pressure uCalm uBuild uCrush uLow uMid : ℚ)
    (h1 : 0 < time_remaining) (h2 : time_remaining ≤ 3) :
    adaptive_thinking_time time_remaining move_number pressure
      uCalm uBuild uCrush uLow uMid = time_remaining * 0.1 ∧
    (time_remaining < 3 →
      adaptive_thinking_time time_remaining move_number pressure
        uCalm uBuild uCrush uLow uMid < 0.3) := by
  have hcap : time_remaining * 0.1 ≤ 0.3 := by linarith
  have he : adaptive_thinking_time time_remaining move_number pressure
      uCalm uBuild uCrush uLow uMid = time_remaining * 0.1 := by
    unfold adaptive_thinking_time
    exact min_eq_right (le_trans hcap (le_max_left _ _))
  refine ⟨he, fun h3 => ?_⟩
  rw [he]
  linarith

/-- C10 witness. -/
theorem thinking_time_cap_under_three_witness :
    ((0 : ℚ) < 2 ∧ (2 : ℚ) ≤ 3) ∧
    (adaptive_thinking_time 2 1 0 2 2 2 1 2 = 2 * 0.1 ∧
     ((2 : ℚ) < 3 → adaptive_thinking_time 2 1 0 2 2 2 1 2 < 0.3)) :=
  ⟨⟨by norm_num, by norm_num⟩,
   thinking_time_cap_under_three 2 1 0 2 2 2 1 2 (by norm_num) (by norm_num)⟩

/-- A sample non-capture pawn candidate, used as a concrete input. -/
def candPawn : Cand :=
  { move := "e2e4", isCapture := false, fromPiece := some PieceType.pawn,
    attacksImportant := true }

/-- A sample non-capture knight candidate, used as a concrete input. -/
def candKnight : Cand :=
  { move := "g1f3", isCapture := false, fromPiece := some PieceType.knight,
    attacksImportant := false }

/-- A sample capture candidate (never "calm"), used as a concrete input. -/
def candCapture : Cand :=
  { move := "d1h5", isCapture := true, fromPiece := some PieceType.queen,
    attacksImportant := true }

/-- C6: below the 30-second threshold the selector always enters blitz mode;
for every candidate list of length at least 2 and every outcome of the
random source, it returns the top-ranked candidate when the draw is below
0.8 and the second-ranked one otherwise — never a lower-ranked one: the
result is the move of one of the first two candidates. -/
theorem blitz_restricted_to_top_two (st : LiquidStyle) (move_number : ℤ)
    (inCheck : Bool) (top_moves : List Cand) (time_remaining : ℚ)
    (r1 r2 : ℚ) (c1 c2 : ℕ) (u : ℚ)
    (hlen : 2 ≤ top_moves.length) (htime : time_remaining < 30) :
    liquid_style_move_selection st time_remaining move_number inCheck
      top_moves r1 r2 c1 c2 u =
      (if r1 < 0.8 then top_moves[0]? else top_moves[1]?).map Cand.move ∧
    ∃ c ∈ top_moves.take 2,
      liquid_style_move_selection st time_remaining move_number inCheck
        top_moves r1 r2 c1 c2 u = some c.move := by
  obtain ⟨a, l1, rfl⟩ := List.exists_cons_of_ne_nil
    (by intro hc; rw [hc] at hlen; simp at hlen : top_moves ≠ [])
  obtain ⟨b, l2, rfl⟩ := List.exists_cons_of_ne_nil
    (by intro hc; rw [hc] at hlen; simp at hlen : l1 ≠ [])
  have h1lt : 1 < (a :: b :: l2).length := by
    simp only [List.length_cons]
    omega
  have hmain : liquid_style_move_selection st time_remaining move_number
      inCheck (a :: b :: l2) r1 r2 c1 c2 u =
      (if r1 < 0.8 then (a :: b :: l2)[0]? else (a :: b :: l2)[1]?).map
        Cand.move := by
    simp only [liquid_style_move_selection, blitz_mode_moves]
    rw [if_neg (by simp), if_pos htime]
    by_cases hr : r1 < 0.8
    · rw [if_pos hr, if_pos hr]
    · rw [if_neg hr, if_neg hr, if_pos h1lt]
  refine ⟨hmain, ?_⟩
  by_cases hr : r1 < 0.8
  · exact ⟨a, by simp, by rw [hmain, if_pos hr]; simp⟩
  · exact ⟨b, by simp, by rw [hmain, if_neg hr]; simp⟩

/-- C6 witness. -/
theorem blitz_restricted_to_top_two_witness :
    (2 ≤ ([candPawn, candKnight] : List Cand).length ∧ (20 : ℚ) < 30) ∧
    (liquid_style_move_selection LIQUID_STYLE_init 20 1 false
      [candPawn, candKnight] 0 0 0 0 0 =
      (if (0 : ℚ) < 0.8 then ([candPawn, candKnight] : List Cand)[0]?
       else ([candPawn, candKnight] : List Cand)[1]?).map Cand.move ∧
    ∃ c ∈ ([candPawn, candKnight] : List Cand).take 2,
      liquid_style_move_selection LIQUID_STYLE_init 20 1 false
        [candPawn, candKnight] 0 0 0 0 0 = some c.move) :=
  ⟨⟨by simp, by norm_num⟩,
   blitz_restricted_to_top_two LIQUID_STYLE_init 1 false
     [candPawn, candKnight] 20 0 0 0 0 0 (by simp) (by norm_num)⟩

/-- C8: in the calm phase, when no candidate satisfies `is_calm_move`, the
solid set is empty and `calm_flow_moves` falls through to the noise branch,
returning the move of some candidate from the list for every outcome of the
random source — it never fails on the empty solid set. -/
theorem calm_no_solid_never_crashes (inCheck : Bool) (top_moves : List Cand)
    (time_pressure r1 r2 : ℚ) (c1 c2 : ℕ)
    (hne : top_moves ≠ [])
    (hnosolid : ∀ c ∈ top_moves, is_calm_move inCheck c = false) :
    ∃ c ∈ top_moves,
      calm_flow_moves inCheck top_moves time_pressure r1 r2 c1 c2 =
        some c.move := by
  obtain ⟨a, l, rfl⟩ := List.exists_cons_of_ne_nil hne
  have hfilter : (a :: l).filter (is_calm_move inCheck) = [] :=
    List.filter_eq_nil_iff.mpr (fun c hc => by simp [hnosolid c hc])
  have hnot : ¬ ((a :: l).filter (is_calm_move inCheck) ≠ [] ∧ r1 < 0.7) := by
    simp [hfilter]
  by_cases hr2 : r2 < max 0.2 (time_pressure * 0.3)
  · by_cases hlen : 3 < (a :: l).length
    · have hne2 : ((a :: l).drop 1).take 3 ≠ [] := by
        have h0 : 0 < (((a :: l).drop 1).take 3).length := by
          simp only [List.length_take, List.length_drop, List.length_cons]
          simp only [List.length_cons] at hlen
          omega
        exact List.length_pos.mp h0
      obtain ⟨x, hx⟩ := pyChoice_isSome _ c2 hne2
      refine ⟨x,
        List.mem_of_mem_drop (List.mem_of_mem_take (pyChoice_mem hx)), ?_⟩
      simp only [calm_flow_moves]
      rw [if_neg hnot, if_pos hr2, if_pos hlen, hx]
      rfl
    · refine ⟨a, List.mem_cons_self a l, ?_⟩
      simp only [calm_flow_moves]
      rw [if_neg hnot, if_pos hr2, if_neg hlen]
      simp
  · refine ⟨a, List.mem_cons_self a l, ?_⟩
    simp only [calm_flow_moves]
    rw [if_neg hnot, if_neg hr2]
    simp

/-- C8 witness. -/
theorem calm_no_solid_never_crashes_witness :
    (([candCapture] : List Cand) ≠ [] ∧
     ∀ c ∈ ([candCapture] : List Cand), is_calm_move false c = false) ∧
    ∃ c ∈ ([candCapture] : List Cand),
      calm_flow_moves false [candCapture] 0 1 1 0 0 = some c.move :=
  ⟨⟨by simp, by simp [candCapture, is_calm_move]⟩,
   calm_no_solid_never_crashes false [candCapture] 0 1 1 0 0 (by simp)
     (by simp [candCapture, is_calm_move])⟩

/-- C9: whenever the calm selector takes the noise branch (the solid set is
empty or the 0.7 draw fails) on a candidate list with at most 3 candidates,
it returns the top-ranked candidate's move, regardless of the rank-2-to-4
noise draw: the uniform pick from ranks 2-4 requires at least 4
candidates. -/
theorem calm_noise_short_list_returns_top (inCheck : Bool)
    (top_moves : List Cand) (time_pressure r1 r2 : ℚ) (c1 c2 : ℕ)
    (hne : top_moves ≠ []) (hlen : top_moves.length ≤ 3)
    (hnoise : ¬ (top_moves.filter (is_calm_move inCheck) ≠ [] ∧ r1 < 0.7)) :
    ∃ c, top_moves[0]? = some c ∧
      calm_flow_moves inCheck top_moves time_pressure r1 r2 c1 c2 =
        some c.move := by
  obtain ⟨a, l, rfl⟩ := List.exists_cons_of_ne_nil hne
  refine ⟨a, by simp, ?_⟩
  have h3 : ¬ 3 < (a :: l).length := Nat.not_lt.mpr hlen
  simp only [calm_flow_moves]
  rw [if_neg hnoise]
  by_cases hr2 : r2 < max 0.2 (time_pressure * 0.3)
  · rw [if_pos hr2, if_neg h3]
    simp
  · rw [if_neg hr2]
    simp

/-- C9 witness. -/
theorem calm_noise_short_list_returns_top_witness :
    (([candCapture, candPawn] : List Cand) ≠ [] ∧
     ([candCapture, candPawn] : List Cand).length ≤ 3 ∧
     ¬ (([candCapture, candPawn] : List Cand).filter (is_calm_move true) ≠ []
        ∧ (0 : ℚ) < 0.7)) ∧
    ∃ c, ([candCapture, candPawn] : List Cand)[0]? = some c ∧
      calm_flow_moves true [candCapture, candPawn] 0 0 0 0 0 = some c.move :=
  ⟨⟨by simp, by simp,
    by simp [candCapture, candPawn, is_calm_move]⟩,
   calm_noise_short_list_returns_top true [candCapture, candPawn] 0 0 0 0 0
     (by simp) (by simp)
     (by simp [candCapture, candPawn, is_calm_move])⟩
